import Mathlib

/-!
Verification of the metadata-extraction core of the Intelligent Metadata
Extraction API (`src/main.py`).

Modelling conventions (shallow embedding of the Python source):
* a Python `str` is a `List Char` (ASCII character classes `\d`, `\w`, `\s`
  are modelled by their ASCII meaning, which covers every value the
  recognizers are exercised on);
* Python `None` is `Option.none`; a function that can fall off the end
  without `return` has an `Option` result;
* a Python exception is the `Except.error` branch of `Except`, carrying the
  stringified cause;
* the optional native capabilities (pdfplumber, python-docx, pytesseract,
  PIL, spaCy) are Booleans recording whether the import succeeded, and the
  I/O they perform is an oracle function supplied in an environment record;
* a Python `set` built by a comprehension and then converted with `list(...)`
  is `List.dedup` of the mapped list (order is irrelevant to every property
  stated below).
-/

/-- Equality of `Except` values is decidable when it is on both sides. -/
instance instDecEqExcept {ε α : Type} [DecidableEq ε] [DecidableEq α] :
    DecidableEq (Except ε α) := fun a b =>
  match a, b with
  | .error e, .error f =>
    if h : e = f then .isTrue (congrArg Except.error h)
    else .isFalse (fun hc => h (Except.error.inj hc))
  | .ok x, .ok y =>
    if h : x = y then .isTrue (congrArg Except.ok h)
    else .isFalse (fun hc => h (Except.ok.inj hc))
  | .error _, .ok _ => .isFalse (fun hc => Except.noConfusion hc)
  | .ok _, .error _ => .isFalse (fun hc => Except.noConfusion hc)

/-- Python's `str.split(sep)` for a one-character separator: splits on every
occurrence and keeps empty pieces, always returning at least one piece. -/
def pySplit (sep : Char) : List Char → List (List Char)
  | [] => [[]]
  | c :: rest =>
    if c = sep then [] :: pySplit sep rest
    else
      match pySplit sep rest with
      | [] => [[c]]
      | g :: gs => (c :: g) :: gs

/-- Python's `str.startswith`. -/
def pyStartsWith (s p : List Char) : Bool := p.isPrefixOf s

/-- Python's `str.endswith`. -/
def pyEndsWith (s p : List Char) : Bool := p.isSuffixOf s

/-- Python's `"\n".join(xs)`. -/
def joinNl (l : List (List Char)) : List Char := List.intercalate ['\n'] l

/-- `src/main.py` line 145:
`def normalize_phone(p): return "+91-"+re.sub(r"\D","",p) if len(re.sub(r"\D","",p))==10 else p`.
`re.sub(r"\D","",p)` keeps exactly the digit characters of `p`. -/
def normalize_phone (p : List Char) : List Char :=
  if (p.filter Char.isDigit).length = 10 then
    "+91-".toList ++ p.filter Char.isDigit
  else p

/-- `src/main.py` lines 146-150 (`normalize_date`).  The source reads
`except: return d; return d`, so in Python BOTH `return d` statements sit in
the `except` suite: when neither `if` fires and no exception is raised the
function falls off the end and returns `None`.  The `Option` result records
exactly that; `some d` covers the `except: return d` paths (a 3-way unpack
of a split that did not produce exactly 3 pieces raises `ValueError`). -/
def normalize_date (d : List Char) : Option (List Char) :=
  if ('/' : Char) ∈ d then
    match pySplit '/' d with
    | [dd, mm, yy] => some (yy ++ '-' :: (mm ++ '-' :: dd))
    | _ => some d
  else if ('-' : Char) ∈ d ∧ ((pySplit '-' d).headI).length ≠ 4 then
    match pySplit '-' d with
    | [dd, mm, yy] => some (yy ++ '-' :: (mm ++ '-' :: dd))
    | _ => some d
  else none

/-! ## A small backtracking regex engine

The three patterns of `src/main.py` lines 141-143 use only character
classes, bounded/unbounded greedy repetition of a character class, optional
groups, alternation, concatenation and the word-boundary assertion, so the
engine below covers exactly those constructs with Python's backtracking
preference order (greedy, left alternative first). -/

/-- Python's `\w` (ASCII part). -/
def isWordChar (c : Char) : Bool := c.isAlphanum || c = '_'

/-- Python's `\s` (ASCII part). -/
def isSpaceChar (c : Char) : Bool :=
  c = ' ' || c = '\t' || c = '\n' || c = '\x0b' || c = '\x0c' || c = '\r'

/-- Regex abstract syntax: `cls` is a one-character class, `rep p lo hi` is
the greedy `p{lo,hi}` (`hi = none` meaning unbounded, so `p+` is
`rep p 1 none`), `opt` is greedy `?`, `wb` is `\b`. -/
inductive Rx where
  | eps : Rx
  | cls : (Char → Bool) → Rx
  | cat : Rx → Rx → Rx
  | alt : Rx → Rx → Rx
  | rep : (Char → Bool) → Nat → Option Nat → Rx
  | opt : Rx → Rx
  | wb : Rx

/-- A literal character. -/
def chrRx (a : Char) : Rx := .cls (fun c => c = a)

/-- Concatenation of a list of regexes. -/
def catMany (l : List Rx) : Rx := l.foldr Rx.cat .eps

/-- Length of the maximal run of characters satisfying `p` at the front. -/
def runLen (p : Char → Bool) : List Char → Nat
  | [] => 0
  | c :: r => if p c then runLen p r + 1 else 0

/-- End positions of `p{lo,hi}` starting at `i`, greedy (longest) first. -/
def repEnds (s : List Char) (p : Char → Bool) (lo : Nat) (hi : Option Nat)
    (i : Nat) : List Nat :=
  let r := runLen p (s.drop i)
  let m := match hi with | some h => min r h | none => r
  if m < lo then [] else (List.range (m - lo + 1)).map (fun j => i + (m - j))

/-- Is position `i` of `s` a `\b` word boundary? -/
def wordB (s : List Char) (i : Nat) : Bool :=
  let before := match i with
    | 0 => false
    | j + 1 => match s.get? j with | some c => isWordChar c | none => false
  let after := match s.get? i with | some c => isWordChar c | none => false
  before != after

/-- All end positions of a match of `rx` starting at position `i` of `s`, in
backtracking preference order (the head is the one Python's engine picks). -/
def rxEnds (s : List Char) : Rx → Nat → List Nat
  | .eps, i => [i]
  | .cls p, i =>
    match s.get? i with
    | some c => if p c then [i + 1] else []
    | none => []
  | .cat a b, i => (rxEnds s a i).flatMap (rxEnds s b)
  | .alt a b, i => rxEnds s a i ++ rxEnds s b i
  | .rep p lo hi, i => repEnds s p lo hi i
  | .opt a, i => rxEnds s a i ++ [i]
  | .wb, i => if wordB s i then [i] else []

/-- The end of the preferred match of `rx` at position `i`, if any. -/
def matchEndAt (s : List Char) (rx : Rx) (i : Nat) : Option Nat :=
  (rxEnds s rx i).head?

/-- The slice `s[i:j]`. -/
def sliceL (s : List Char) (i j : Nat) : List Char := (s.drop i).take (j - i)

/-- `re.findall` scanning loop: try each position left to right, record the
preferred match and resume after it (an empty match advances by one). The
fuel argument bounds the iteration count; `s.length + 1` always suffices. -/
def findallFrom (s : List Char) (rx : Rx) : Nat → Nat → List (List Char)
  | _, 0 => []
  | i, fuel + 1 =>
    if i > s.length then []
    else
      match matchEndAt s rx i with
      | some e => sliceL s i e :: findallFrom s rx (if i < e then e else i + 1) fuel
      | none => findallFrom s rx (i + 1) fuel

/-- Python's `pattern.findall(s)` for patterns without capture groups. -/
def findall (rx : Rx) (s : List Char) : List (List Char) :=
  findallFrom s rx 0 (s.length + 1)

/-- `_email_re=re.compile(r"[a-zA-Z0-9_.+-]+@[a-zA-Z0-9-]+\.[a-zA-Z0-9-.]+")`. -/
def _email_re : Rx :=
  catMany
    [ .rep (fun c => c.isAlpha || c.isDigit || c = '_' || c = '.' || c = '+' || c = '-') 1 none,
      chrRx '@',
      .rep (fun c => c.isAlpha || c.isDigit || c = '-') 1 none,
      chrRx '.',
      .rep (fun c => c.isAlpha || c.isDigit || c = '-' || c = '.') 1 none ]

/-- `_phone_re=re.compile(r"(?:\+?\d{1,3}[\s-]?)?(?:\(?\d{2,4}\)?[\s-]?)?\d{6,10}")`. -/
def _phone_re : Rx :=
  catMany
    [ .opt (catMany
        [ .opt (chrRx '+'),
          .rep Char.isDigit 1 (some 3),
          .opt (.cls (fun c => isSpaceChar c || c = '-')) ]),
      .opt (catMany
        [ .opt (chrRx '('),
          .rep Char.isDigit 2 (some 4),
          .opt (chrRx ')'),
          .opt (.cls (fun c => isSpaceChar c || c = '-')) ]),
      .rep Char.isDigit 6 (some 10) ]

/-- `_date_re` (line 143): word-boundary, then either `\d{4}-\d{2}-\d{2}` or
`\d{2} D \d{2} D \d{4}` where `D` is the class holding dash and slash, then
word-boundary. -/
def _date_re : Rx :=
  catMany
    [ .wb,
      .alt
        (catMany [ .rep Char.isDigit 4 (some 4), chrRx '-',
                   .rep Char.isDigit 2 (some 2), chrRx '-',
                   .rep Char.isDigit 2 (some 2) ])
        (catMany [ .rep Char.isDigit 2 (some 2), .cls (fun c => c = '-' || c = '/'),
                   .rep Char.isDigit 2 (some 2), .cls (fun c => c = '-' || c = '/'),
                   .rep Char.isDigit 4 (some 4) ]),
      .wb ]

/-- The output shape of `run_regex` (`src/main.py` lines 159-162): a dict
with exactly the keys `emails`, `phones`, `dates`, modelled as a record with
one field per key.  The Python `dates` set may contain `None` because of
the `normalize_date` fall-through, hence its `Option` elements. -/
structure PatternMatches where
  emails : List (List Char)
  phones : List (List Char)
  dates : List (Option (List Char))

/-- `src/main.py` lines 159-162 (`run_regex`): each category is the set of
(normalized) regex matches, converted back to a list. -/
def run_regex (text : List Char) : PatternMatches :=
  { emails := (findall _email_re text).dedup
    phones := ((findall _phone_re text).map normalize_phone).dedup
    dates := ((findall _date_re text).map normalize_date).dedup }

/-! ## Entity recognition (`run_ner`, lines 164-173) -/

/-- A spaCy entity: its surface text (`e.text`) and label (`e.label_`). -/
structure Ent where
  text : List Char
  label : List Char

/-- A loaded spaCy model: applying it to text yields the document's entity
list, or raises (the `Except.error` branch). -/
def Model := List Char → Except (List Char) (List Ent)

/-- The module-level mutable state of `src/main.py` that `run_ner` touches:
`spacy` records whether `import spacy` succeeded (line 21-24), `nlp` is the
lazily assigned global model (initially `None`). -/
structure NerState where
  spacy : Bool
  nlp : Option Model

/-- The output dict of `run_ner`, one field per key. -/
structure EntityMatches where
  names : List (List Char)
  organizations : List (List Char)
  locations : List (List Char)
  deriving DecidableEq

/-- The all-empty result dict `{"names":[],"organizations":[],"locations":[]}`. -/
def emptyEnt : EntityMatches := ⟨[], [], []⟩

/-- Lines 171-173: bucket the document's entities by label and deduplicate
each bucket through a set. -/
def bucketEnts (doc : List Ent) : EntityMatches :=
  { names := ((doc.filter (fun e => e.label == "PERSON".toList)).map Ent.text).dedup
    organizations := ((doc.filter (fun e => e.label == "ORG".toList)).map Ent.text).dedup
    locations :=
      ((doc.filter (fun e => e.label == "GPE".toList || e.label == "LOC".toList)).map
        Ent.text).dedup }

/-- `run_ner` (lines 164-173).  `load` is the outcome the process would get
from `spacy.load("en_core_web_sm")` if it were executed on this call
(`none` = the load raises).  The returned state is the value of the global
`nlp` after the call: the code only assigns it on a successful load, so a
failed load leaves `nlp` unset. -/
def run_ner (load : Option Model) (st : NerState) (text : List Char) :
    NerState × Except (List Char) EntityMatches :=
  if st.spacy = false then (st, .ok emptyEnt)
  else
    match st.nlp with
    | some m => (st, (m text).map bucketEnts)
    | none =>
      match load with
      | none => (st, .ok emptyEnt)
      | some m => ({ st with nlp := some m }, (m text).map bucketEnts)

/-- `spacy.load` is executed by a call to `run_ner` exactly when the guard
`if not spacy` falls through and the guard `if not nlp` fires, i.e. when
`spacy` imported and the global `nlp` is still unset. -/
def ner_load_attempted (st : NerState) : Bool := st.spacy && st.nlp.isNone

/-! ## Text extraction (`extract_text`, lines 152-157) -/

/-- The process environment `extract_text` sees: the four capability flags
set by the conditional imports (lines 13-20), and oracles for what the
capability libraries would produce for a given path.  `pdfPages` models
`pdfplumber.open(path).pages` with each page's `extract_text()` result
(`none` models a page whose `extract_text()` returns `None`, absorbed by
`or ""`); `docParagraphs` models the paragraph texts of
`docx.Document(path)`; `imageText` models
`pytesseract.image_to_string(Image.open(path))`.  An `Except.error` from an
oracle models the library call raising (e.g. unreadable file). -/
structure Env where
  pdfplumber : Bool
  docx : Bool
  pytesseract : Bool
  Image : Bool
  pdfPages : List Char → Except (List Char) (List (Option (List Char)))
  docParagraphs : List Char → Except (List Char) (List (List Char))
  imageText : List Char → Except (List Char) (List Char)

/-- `extract_text(path, ftype)` (lines 152-157): dispatch on the declared
media type string — equality with `"application/pdf"`, then the suffix test
`ftype.endswith("document")`, then `ftype.startswith("image")` — each
guarded by its capability flag, falling through to `("", 0)`. -/
def extract_text (env : Env) (path ftype : List Char) :
    Except (List Char) (List Char × Int) :=
  if ftype = "application/pdf".toList ∧ env.pdfplumber = true then
    match env.pdfPages path with
    | .error e => .error e
    | .ok pages => .ok (joinNl (pages.map (fun o => o.getD [])), (pages.length : Int))
  else if pyEndsWith ftype "document".toList = true ∧ env.docx = true then
    match env.docParagraphs path with
    | .error e => .error e
    | .ok paras => .ok (joinNl paras, 1)
  else if pyStartsWith ftype "image".toList = true ∧ env.pytesseract = true ∧
      env.Image = true then
    match env.imageText path with
    | .error e => .error e
    | .ok t => .ok (t, 1)
  else .ok ([], 0)

/-! ## The processing pipeline (`process`, lines 324-335) -/

/-- The row the `/process/{id}` handler reads from the `uploads` table. -/
structure UploadRec where
  id : Nat
  full_path : List Char
  file_type : List Char

/-- The merged metadata dict `{**regex, **ner}`: the two key sets are
disjoint, so the merge is the union of the six categories. -/
structure Metadata where
  emails : List (List Char)
  phones : List (List Char)
  dates : List (Option (List Char))
  names : List (List Char)
  organizations : List (List Char)
  locations : List (List Char)

/-- `metadata={**regex,**ner}` (line 330). -/
def mergeMeta (r : PatternMatches) (n : EntityMatches) : Metadata :=
  ⟨r.emails, r.phones, r.dates, n.names, n.organizations, n.locations⟩

/-- A persisted `ExtractionResult` row (lines 83-91); `metadata_json` is
modelled as the metadata value itself rather than its `str(...)`
serialization. -/
structure ExtractionResultRec where
  upload_id : Nat
  metadata_json : Metadata
  pages : Int
  time_taken : List Char

/-- The handler's success response body (line 333). -/
structure ProcessResponse where
  file_id : Nat
  metadata : Metadata
  pages : Int
  time_taken : List Char

/-- The cause-carrying message of `HTTPException(500, f"Processing failed: ...")`. -/
def failMsg : List Char := "Processing failed: ".toList

/-- The `/process/{id}` handler body after the upload row is found (lines
328-335).  `tt` is the elapsed-time string the wall clock yields for this
call, `db` the current list of persisted `ExtractionResult` rows.  Returns
the NER state after the call, the rows after the call, and either the
success response or the `(500, message)` of the raised `HTTPException`. -/
def process (env : Env) (load : Option Model) (st : NerState) (tt : List Char)
    (u : UploadRec) (db : List ExtractionResultRec) :
    NerState × List ExtractionResultRec × Except (Nat × List Char) ProcessResponse :=
  match extract_text env u.full_path u.file_type with
  | .error e => (st, db, .error (500, failMsg ++ e))
  | .ok te =>
    match run_ner load st te.1 with
    | (st2, .error e) => (st2, db, .error (500, failMsg ++ e))
    | (st2, .ok ner) =>
      (st2, db ++ [⟨u.id, mergeMeta (run_regex te.1) ner, te.2, tt⟩],
        .ok ⟨u.id, mergeMeta (run_regex te.1) ner, te.2, tt⟩)


/-! ## Shared lemmas about `pySplit` -/

/-- Splitting a list free of the separator yields the single piece. -/
theorem pySplit_sepFree (sep : Char) (l : List Char) (h : ∀ c ∈ l, c ≠ sep) :
    pySplit sep l = [l] := by
  induction l with
  | nil => rfl
  | cons c r ih =>
    have hc : c ≠ sep := h c (List.mem_cons_self c r)
    have hr := ih (fun x hx => h x (List.mem_cons_of_mem c hx))
    simp [pySplit, hc, hr]

/-- Splitting past a separator-free head piece. -/
theorem pySplit_append (sep : Char) (a r : List Char) (h : ∀ c ∈ a, c ≠ sep) :
    pySplit sep (a ++ sep :: r) = a :: pySplit sep r := by
  induction a with
  | nil => simp [pySplit]
  | cons c t ih =>
    have hc : c ≠ sep := h c (List.mem_cons_self c t)
    have ht := ih (fun x hx => h x (List.mem_cons_of_mem c hx))
    simp [pySplit, hc, ht]

/-- A list of digit characters never holds the given non-digit character. -/
theorem digits_ne_of_not_digit (l : List Char) (hl : ∀ c ∈ l, c.isDigit = true)
    (a : Char) (ha : a.isDigit = false) : ∀ c ∈ l, c ≠ a := by
  intro c hc he
  have hd := hl c hc
  rw [he, ha] at hd
  cases hd

/-! ## Claims -/

/-- C1: the claim says `normalize_date` returns an ISO-form dash date (first
dash-separated component already 4 digits) unchanged, in particular
`normalize_date("2023-12-25") = "2023-12-25"`.  The code instead returns
Python `None` on that input: the trailing `return d` of `normalize_date`
sits inside the `except` suite (`except: return d; return d`), so the
function falls off the end.  This theorem evaluates the embedded code at
the failing input. -/
theorem c1_normalize_date_iso_returns_none :
    normalize_date "2023-12-25".toList = none := by decide

/-- C5: for every string `p`, if stripping all non-digit characters yields
exactly 10 digits then `normalize_phone p` is `"+91-"` followed by those
digits, otherwise `normalize_phone p = p`. -/
theorem c5_normalize_phone_rule (p : List Char) :
    ((p.filter Char.isDigit).length = 10 →
      normalize_phone p = "+91-".toList ++ p.filter Char.isDigit) ∧
    ((p.filter Char.isDigit).length ≠ 10 → normalize_phone p = p) := by
  constructor <;> intro h <;> simp [normalize_phone, h]

/-- Witness for C5 at `"98765 43210"` (10 digits) and `"12345"` (5 digits). -/
theorem c5_witness :
    normalize_phone "98765 43210".toList =
      "+91-".toList ++ "98765 43210".toList.filter Char.isDigit ∧
    normalize_phone "12345".toList = "12345".toList :=
  ⟨(c5_normalize_phone_rule "98765 43210".toList).1 (by decide),
   (c5_normalize_phone_rule "12345".toList).2 (by decide)⟩

/-- C6: phone normalization is idempotent on every 10-digit string, and an
already-normalized `+91-XXXXXXXXXX` value is returned unchanged (its digit
count is 12, not 10). -/
theorem c6_normalize_phone_idempotent (X : List Char)
    (hd : ∀ c ∈ X, c.isDigit = true) (hl : X.length = 10) :
    normalize_phone (normalize_phone X) = normalize_phone X ∧
    normalize_phone ("+91-".toList ++ X) = "+91-".toList ++ X := by
  have hf : X.filter Char.isDigit = X := List.filter_eq_self.mpr hd
  have h1 : normalize_phone X = "+91-".toList ++ X := by
    simp [normalize_phone, hf, hl]
  have hfilt : ("+91-".toList ++ X).filter Char.isDigit = '9' :: '1' :: X := by
    rw [List.filter_append, hf]
    rfl
  have h2 : normalize_phone ("+91-".toList ++ X) = "+91-".toList ++ X := by
    unfold normalize_phone
    rw [hfilt]
    simp [hl]
  exact ⟨by rw [h1, h2], h2⟩

/-- Witness for C6 at the spec's example number `9876543210`. -/
theorem c6_witness :
    normalize_phone (normalize_phone "9876543210".toList) =
      normalize_phone "9876543210".toList ∧
    normalize_phone ("+91-".toList ++ "9876543210".toList) =
      "+91-".toList ++ "9876543210".toList :=
  c6_normalize_phone_idempotent "9876543210".toList (by decide) (by decide)

/-- C7: every slash-form date `DD/MM/YYYY` (digit components of widths
2, 2, 4) is reordered to ISO form `YYYY-MM-DD`. -/
theorem c7_normalize_date_slash (dd mm yy : List Char)
    (l1 : dd.length = 2) (l2 : mm.length = 2) (l3 : yy.length = 4)
    (h1 : ∀ c ∈ dd, c.isDigit = true) (h2 : ∀ c ∈ mm, c.isDigit = true)
    (h3 : ∀ c ∈ yy, c.isDigit = true) :
    normalize_date (dd ++ '/' :: (mm ++ '/' :: yy)) =
      some (yy ++ '-' :: (mm ++ '-' :: dd)) := by
  have nd1 := digits_ne_of_not_digit dd h1 '/' (by decide)
  have nd2 := digits_ne_of_not_digit mm h2 '/' (by decide)
  have nd3 := digits_ne_of_not_digit yy h3 '/' (by decide)
  have hmem : ('/' : Char) ∈ dd ++ '/' :: (mm ++ '/' :: yy) := by simp
  have hsplit : pySplit '/' (dd ++ '/' :: (mm ++ '/' :: yy)) = [dd, mm, yy] := by
    rw [pySplit_append '/' dd _ nd1, pySplit_append '/' mm _ nd2,
      pySplit_sepFree '/' yy nd3]
  unfold normalize_date
  rw [if_pos hmem, hsplit]

/-- Witness for C7 at the spec's round-trip example `"25/12/2023"`. -/
theorem c7_witness :
    normalize_date ("25".toList ++ '/' :: ("12".toList ++ '/' :: "2023".toList)) =
      some ("2023".toList ++ '-' :: ("12".toList ++ '-' :: "25".toList)) :=
  c7_normalize_date_slash "25".toList "12".toList "2023".toList (by decide)
    (by decide) (by decide) (by decide) (by decide) (by decide)

/-- C8: for every text input, `run_regex` yields a value of the record type
holding exactly the three categories `emails`, `phones`, `dates` (so every
key is present even with zero matches), and each category list is
deduplicated: no element appears twice. -/
theorem c8_run_regex_keys_dedup (text : List Char) :
    (run_regex text).emails.Nodup ∧ (run_regex text).phones.Nodup ∧
      (run_regex text).dates.Nodup :=
  ⟨List.nodup_dedup _, List.nodup_dedup _, List.nodup_dedup _⟩

/-- C9: with the spaCy dependency not importable, `run_ner` returns the dict
with `names`, `organizations`, `locations` all empty, raises nothing, and
leaves the module state untouched — for every text and load outcome. -/
theorem c9_run_ner_no_spacy (load : Option Model) (st : NerState)
    (text : List Char) (h : st.spacy = false) :
    run_ner load st text = (st, .ok emptyEnt) := by
  unfold run_ner
  rw [if_pos h]

/-- Witness for C9 with spaCy absent and a nonempty text. -/
theorem c9_witness :
    run_ner none ⟨false, none⟩ "Contact John".toList =
      (⟨false, none⟩, Except.ok emptyEnt) :=
  c9_run_ner_no_spacy none ⟨false, none⟩ "Contact John".toList rfl

/-- Counterexample to C2: after a failed model load (`spacy` importable,
`spacy.load` raising, so the call returns empty results), the module state
is unchanged — `nlp` is still unset — and therefore the very next call
satisfies the load-attempt guard again: `ner_load_attempted` is `true` for
the post-call state, refuting "every subsequent call ... without attempting
to load the model again". -/
theorem c2_counterexample :
    ner_load_attempted ⟨true, none⟩ = true ∧
    run_ner none ⟨true, none⟩ "x".toList = (⟨true, none⟩, .ok emptyEnt) ∧
    ner_load_attempted (run_ner none ⟨true, none⟩ "x".toList).1 = true :=
  ⟨rfl, rfl, rfl⟩

/-- C2 as amended: a load failure is NOT memoized.  Whenever `spacy` is
importable and `nlp` is still unset, a call whose load attempt fails
returns all-empty results without raising, leaves `nlp` unset, and the
resulting state still triggers a fresh load attempt on the next call. -/
theorem c2_amended_load_retry (st : NerState) (text : List Char)
    (h1 : st.spacy = true) (h2 : st.nlp = none) :
    run_ner none st text = (st, .ok emptyEnt) ∧
    ner_load_attempted (run_ner none st text).1 = true := by
  have hr : run_ner none st text = (st, .ok emptyEnt) := by
    unfold run_ner
    rw [h1, h2]
    rfl
  refine ⟨hr, ?_⟩
  rw [hr]
  simp [ner_load_attempted, h1, h2]

/-- Witness for the amended C2 at the uninitialized state. -/
theorem c2_amended_witness :
    run_ner none ⟨true, none⟩ "y".toList = (⟨true, none⟩, .ok emptyEnt) ∧
    ner_load_attempted (run_ner none ⟨true, none⟩ "y".toList).1 = true :=
  c2_amended_load_retry ⟨true, none⟩ "y".toList rfl rfl

/-! ## `extract_text` dispatch lemmas (shared) -/

/-- A string ending in `"document"` is not `"application/pdf"`. -/
theorem endsDocument_ne_pdf (t : List Char)
    (h : pyEndsWith t "document".toList = true) :
    t ≠ "application/pdf".toList := by
  intro he
  rw [he] at h
  exact absurd h (by decide)

/-- A string starting with `"image"` is not `"application/pdf"`. -/
theorem startsImage_ne_pdf (t : List Char)
    (h : pyStartsWith t "image".toList = true) :
    t ≠ "application/pdf".toList := by
  intro he
  rw [he] at h
  exact absurd h (by decide)

/-- When the declared type ends with `"document"` and the DOCX reader is
installed, `extract_text` runs the DOCX strategy. -/
theorem extract_text_docBranch (env : Env) (path t : List Char)
    (h : pyEndsWith t "document".toList = true) (hd : env.docx = true) :
    extract_text env path t =
      match env.docParagraphs path with
      | .error e => .error e
      | .ok paras => .ok (joinNl paras, 1) := by
  unfold extract_text
  rw [if_neg (fun hc => endsDocument_ne_pdf t h hc.1), if_pos ⟨h, hd⟩]

/-- When the declared type starts with `"image"`, the DOCX branch does not
fire, and OCR is installed, `extract_text` runs the OCR strategy. -/
theorem extract_text_imgBranch (env : Env) (path t : List Char)
    (h : pyStartsWith t "image".toList = true)
    (hnd : ¬(pyEndsWith t "document".toList = true ∧ env.docx = true))
    (hp : env.pytesseract = true) (hi : env.Image = true) :
    extract_text env path t =
      match env.imageText path with
      | .error e => .error e
      | .ok tx => .ok (tx, 1) := by
  unfold extract_text
  rw [if_neg (fun hc => startsImage_ne_pdf t h hc.1), if_neg hnd,
    if_pos ⟨h, hp, hi⟩]

/-- A declared type in none of the three dispatch classes yields `("", 0)`
whatever the file holds. -/
theorem extract_text_noClass (env : Env) (path t : List Char)
    (h1 : t ≠ "application/pdf".toList)
    (h2 : pyEndsWith t "document".toList = false)
    (h3 : pyStartsWith t "image".toList = false) :
    extract_text env path t = .ok ([], 0) := by
  unfold extract_text
  rw [if_neg (fun hc => h1 hc.1), if_neg (fun hc => by rw [h2] at hc; cases hc.1),
    if_neg (fun hc => by rw [h3] at hc; cases hc.1)]

/-- C4: `extract_text` is best-effort and capability-optional — whenever no
supported kind with an installed capability applies to the declared type
(the type is unsupported, or every capability it could use is missing), the
result is `("", 0)` and nothing is raised; and every successful extraction
reports a unit count that is at least 0. -/
theorem c4_extract_best_effort :
    (∀ (env : Env) (path ftype : List Char),
        ¬(ftype = "application/pdf".toList ∧ env.pdfplumber = true) →
        ¬(pyEndsWith ftype "document".toList = true ∧ env.docx = true) →
        ¬(pyStartsWith ftype "image".toList = true ∧ env.pytesseract = true ∧
            env.Image = true) →
        extract_text env path ftype = .ok ([], 0)) ∧
    (∀ (env : Env) (path ftype t : List Char) (n : Int),
        extract_text env path ftype = .ok (t, n) → 0 ≤ n) := by
  constructor
  · intro env path ftype h1 h2 h3
    unfold extract_text
    rw [if_neg h1, if_neg h2, if_neg h3]
  · intro env path ftype t n h
    unfold extract_text at h
    split_ifs at h
    · cases hp : env.pdfPages path with
      | error e => rw [hp] at h; cases h
      | ok pages =>
        rw [hp] at h
        simp only [Except.ok.injEq, Prod.mk.injEq] at h
        rw [← h.2]
        exact Int.natCast_nonneg _
    · cases hp : env.docParagraphs path with
      | error e => rw [hp] at h; cases h
      | ok paras =>
        rw [hp] at h
        simp only [Except.ok.injEq, Prod.mk.injEq] at h
        rw [← h.2]
        decide
    · cases hp : env.imageText path with
      | error e => rw [hp] at h; cases h
      | ok tx =>
        rw [hp] at h
        simp only [Except.ok.injEq, Prod.mk.injEq] at h
        rw [← h.2]
        decide
    · simp only [Except.ok.injEq, Prod.mk.injEq] at h
      rw [← h.2]

/-- An environment with no capability installed. -/
def envNone : Env :=
  { pdfplumber := false, docx := false, pytesseract := false, Image := false,
    pdfPages := fun _ => .ok [], docParagraphs := fun _ => .ok [],
    imageText := fun _ => .ok [] }

/-- Witness for C4: an unsupported declared type with no capabilities. -/
theorem c4_witness :
    extract_text envNone "p".toList "text/plain".toList = .ok ([], 0) ∧
    (0 : Int) ≤ 0 := by
  have h := c4_extract_best_effort.1 envNone "p".toList "text/plain".toList
    (by decide) (by decide) (by decide)
  exact ⟨h, c4_extract_best_effort.2 envNone "p".toList "text/plain".toList [] 0 h⟩

/-- An environment with every capability installed, whose DOCX reader sees
one paragraph `"A"` and whose OCR engine reads `"B"`. -/
def envBoth : Env :=
  { pdfplumber := true, docx := true, pytesseract := true, Image := true,
    pdfPages := fun _ => .ok [], docParagraphs := fun _ => .ok [['A']],
    imageText := fun _ => .ok ['B'] }

/-- Counterexample to C10: the declared type `"imagedocument"` starts with
`"image"` and OCR is installed and would read `"B"`, yet `extract_text`
returns the DOCX strategy's output `("A", 1)` — the suffix test for
`"document"` runs first, so this image-prefixed string does NOT select the
OCR strategy. -/
theorem c10_counterexample :
    pyStartsWith "imagedocument".toList "image".toList = true ∧
    envBoth.pytesseract = true ∧ envBoth.Image = true ∧
    envBoth.imageText "p".toList = .ok ['B'] ∧
    extract_text envBoth "p".toList "imagedocument".toList = .ok (['A'], 1) ∧
    (Except.ok (['A'], 1) : Except (List Char) (List Char × Int)) ≠
      .ok (['B'], 1) := by
  exact ⟨by decide, rfl, rfl, rfl, by decide, by decide⟩

/-- An environment where only the DOCX reader is installed, seeing one
paragraph `"A"`. -/
def envDocOnly : Env :=
  { pdfplumber := false, docx := true, pytesseract := false, Image := false,
    pdfPages := fun _ => .ok [], docParagraphs := fun _ => .ok [['A']],
    imageText := fun _ => .ok [] }

/-- An environment where only the OCR engine is installed, reading `"B"`. -/
def envImgOnly : Env :=
  { pdfplumber := false, docx := false, pytesseract := true, Image := true,
    pdfPages := fun _ => .ok [], docParagraphs := fun _ => .ok [],
    imageText := fun _ => .ok ['B'] }

/-- An environment where only the PDF reader is installed, seeing one page
with text `"C"`. -/
def envPdfOnly : Env :=
  { pdfplumber := true, docx := false, pytesseract := false, Image := false,
    pdfPages := fun _ => .ok [some ['C']], docParagraphs := fun _ => .ok [],
    imageText := fun _ => .ok [] }

/-- C10 as amended: dispatch tests the declared type by equality with
`"application/pdf"`, then by the suffix `"document"`, then by the prefix
`"image"`, in that order.  So (1) a type ending with `"document"` selects
the DOCX strategy when that reader is installed; (2) a type starting with
`"image"` selects the OCR strategy when OCR is installed, unless it also
ends with `"document"` with the DOCX reader installed (the suffix test runs
first); (3) a type in none of the three classes yields `("", 0)` regardless
of file content; and each of the three classes can yield non-empty output
((4) suffix `"document"`, (5) the prefix `"image"`, (6) `"application/pdf"`). -/
theorem c10_amended_dispatch :
    (∀ (env : Env) (path t : List Char),
        pyEndsWith t "document".toList = true → env.docx = true →
        extract_text env path t =
          match env.docParagraphs path with
          | .error e => .error e
          | .ok paras => .ok (joinNl paras, 1)) ∧
    (∀ (env : Env) (path t : List Char),
        pyStartsWith t "image".toList = true →
        ¬(pyEndsWith t "document".toList = true ∧ env.docx = true) →
        env.pytesseract = true → env.Image = true →
        extract_text env path t =
          match env.imageText path with
          | .error e => .error e
          | .ok tx => .ok (tx, 1)) ∧
    (∀ (env : Env) (path t : List Char),
        t ≠ "application/pdf".toList →
        pyEndsWith t "document".toList = false →
        pyStartsWith t "image".toList = false →
        extract_text env path t = .ok ([], 0)) ∧
    (∀ t : List Char, pyEndsWith t "document".toList = true →
        ∃ (env : Env) (path : List Char), extract_text env path t ≠ .ok ([], 0)) ∧
    (∀ t : List Char, pyStartsWith t "image".toList = true →
        ∃ (env : Env) (path : List Char), extract_text env path t ≠ .ok ([], 0)) ∧
    (∃ (env : Env) (path : List Char),
        extract_text env path "application/pdf".toList ≠ .ok ([], 0)) := by
  refine ⟨extract_text_docBranch, extract_text_imgBranch, extract_text_noClass,
    ?_, ?_, ?_⟩
  · intro t h
    refine ⟨envDocOnly, "p".toList, ?_⟩
    rw [extract_text_docBranch envDocOnly "p".toList t h rfl]
    decide
  · intro t h
    refine ⟨envImgOnly, "p".toList, ?_⟩
    rw [extract_text_imgBranch envImgOnly "p".toList t h
      (fun hc => by exact absurd hc.2 (by decide)) rfl rfl]
    decide
  · exact ⟨envPdfOnly, "p".toList, by decide⟩

/-- Witness for the amended C10: the DOCX branch at `"imagedocument"`, the
OCR branch at `"image/png"`, and the fall-through at `"text/plain"`. -/
theorem c10_amended_witness :
    extract_text envBoth "p".toList "imagedocument".toList =
      (match envBoth.docParagraphs "p".toList with
        | .error e => .error e
        | .ok paras => .ok (joinNl paras, 1)) ∧
    extract_text envImgOnly "p".toList "image/png".toList =
      (match envImgOnly.imageText "p".toList with
        | .error e => .error e
        | .ok tx => .ok (tx, 1)) ∧
    extract_text envNone "p".toList "text/plain".toList = .ok ([], 0) :=
  ⟨c10_amended_dispatch.1 envBoth "p".toList "imagedocument".toList
      (by decide) rfl,
   c10_amended_dispatch.2.1 envImgOnly "p".toList "image/png".toList
      (by decide) (by decide) rfl rfl,
   c10_amended_dispatch.2.2.1 envNone "p".toList "text/plain".toList
      (by decide) (by decide) (by decide)⟩

/-- C3: for every upload record, environment, NER state and persisted rows,
the `/process/{id}` pipeline either succeeds — returning a response built of
the full merged metadata plus stats (unit count and elapsed-time string)
for this upload and appending exactly one `ExtractionResult` row holding
those same values — or an extraction/recognition step raised, the handler
catches it at the pipeline boundary and reports a single 500 failure whose
message carries the cause string, appending no row at all. -/
theorem c3_pipeline_atomic (env : Env) (load : Option Model) (st : NerState)
    (tt : List Char) (u : UploadRec) (db : List ExtractionResultRec) :
    (∃ r : ProcessResponse,
        (process env load st tt u db).2.2 = .ok r ∧ r.file_id = u.id ∧
        (process env load st tt u db).2.1 =
          db ++ [⟨u.id, r.metadata, r.pages, r.time_taken⟩]) ∨
    (∃ cause : List Char,
        (process env load st tt u db).2.2 = .error (500, failMsg ++ cause) ∧
        (process env load st tt u db).2.1 = db) := by
  cases hE : extract_text env u.full_path u.file_type with
  | error e =>
    right
    refine ⟨e, ?_, ?_⟩ <;> simp [process, hE]
  | ok te =>
    cases hN : run_ner load st te.1 with
    | mk st2 res =>
      cases res with
      | error e =>
        right
        refine ⟨e, ?_, ?_⟩ <;> simp [process, hE, hN]
      | ok ner =>
        left
        refine ⟨⟨u.id, mergeMeta (run_regex te.1) ner, te.2, tt⟩, ?_, rfl, ?_⟩ <;>
          simp [process, hE, hN]

set_option maxRecDepth 10000 in
/-- Sanity check of the embedding on the specification's example text: the
recognizer finds the email, the normalized phone number, and (in a second
text) the slash-date reordered to ISO plus the `None` produced for the
already-ISO date. -/
theorem run_regex_sample :
    (run_regex "Contact John at john@example.com or 9876543210".toList).emails =
      ["john@example.com".toList] ∧
    (run_regex "Contact John at john@example.com or 9876543210".toList).phones =
      ["+91-9876543210".toList] ∧
    (run_regex "25/12/2023 and 2023-12-25".toList).dates =
      [some "2023-12-25".toList, none] := by decide
